import Mathlib

/-!
Verification development for the powerstrip plugin runtime (Go).

The definitions below are a shallow embedding of the repository source:
pure computations become Lean functions, and the effects of external
collaborators (the operating system, the multiplexer, the RPC endpoint,
channel receives) are supplied as explicit environment values, so that
every control path of the embedded code is a path of the Lean function.
Machine integers are modelled as Nat with explicit reduction modulo 2 ^ 32
where the source uses uint32.
-/

/-- From server.go: the protocol version of the plugin system itself. -/
def CoreProtocolVersion : Nat := 1

/-- A resolved network address: the pair returned by the net resolvers,
as observed through Network() and String(). -/
structure NetAddr where
  network : String
  address : String
deriving DecidableEq, Repr

/-- Split a character list at the first pipe character, if any. -/
def splitFirstPipe : List Char → Option (List Char × List Char)
  | [] => none
  | c :: cs =>
    if c = '|' then some ([], cs)
    else
      match splitFirstPipe cs with
      | none => none
      | some (a, b) => some (c :: a, b)

/-- Go strings.SplitN(s, "|", 2): at most two parts, split at the first
pipe; a string with no pipe yields the one-element list. -/
def splitNPipe2 (s : String) : List String :=
  match splitFirstPipe s.data with
  | none => [s]
  | some (a, b) => [String.mk a, String.mk b]

/-- Whitespace as trimmed by Go strings.TrimSpace, restricted to the
ASCII space characters (the handshake line is ASCII). -/
def isGoSpace (c : Char) : Bool :=
  c = ' ' || c = '\t' || c = '\n' || c = '\x0b' || c = '\x0c' || c = '\r'

/-- Go strings.TrimSpace: drop leading and trailing whitespace. -/
def goTrimSpace (s : String) : String :=
  String.mk (((s.data.dropWhile isGoSpace).reverse.dropWhile isGoSpace).reverse)

/-- The long error text from Client.Start for a line with fewer than two
pipe-separated parts. -/
def unrecognizedMsg (line : String) : String :=
  "Unrecognized remote plugin message: " ++ line ++
    "\n\nThis usually means that the plugin is either invalid or simply\nneeds to be recompiled to support the latest protocol."

/-- The pair of address resolvers used by Client.Start. The net package
is an external collaborator, so the resolvers are parameters of the
embedding. -/
structure AddrResolver where
  resolveTCP : String → Except String NetAddr
  resolveUnix : String → Except String NetAddr

/-- A model instance of the net resolvers: resolution succeeds and the
resolved address reports the requested network and address string, the
behaviour the repository tests rely on for ":1234". -/
def modelResolver : AddrResolver :=
  ⟨fun a => Except.ok ⟨"tcp", a⟩, fun a => Except.ok ⟨"unix", a⟩⟩

/-- The line Serve prints on stdout (server.go): four pipe-separated
fields, core protocol version, app protocol version 1, network, address. -/
def serveHandshakeLine (network address : String) : String :=
  toString CoreProtocolVersion ++ "|1|" ++ network ++ "|" ++ address

/-- Supervisor state (the Client struct fields the claims mention).
proc holds the child process id while a child reference is retained. -/
structure ClientState where
  addr : Option NetAddr
  proc : Option Nat
  exited : Bool
  procKilled : Bool
deriving DecidableEq, Repr

/-- Which of the three select branches in Client.Start fires first:
the start timeout, the done context (child exited), or a stdout line. -/
inductive StartOutcome where
  | timeout
  | doneCtx
  | line (s : String)
deriving DecidableEq, Repr

/-- Environment for one run of Client.Start: results of the two pipe
creations, of the spawn, and the select outcome. -/
structure StartEnv where
  stdoutPipeErr : Option String
  stderrPipeErr : Option String
  spawn : Except String Nat
  outcome : StartOutcome

/-- Observable result of one run of Client.Start: the returned address,
the returned error, whether a child was spawned, and whether the
deferred guard issued cmd.Process.Kill before returning. -/
structure StartRet where
  addr : Option NetAddr
  err : Option String
  spawned : Bool
  childKilled : Bool
deriving DecidableEq, Repr

/-- The tail of the line branch of Client.Start: the resolver result is
assigned to the local err variable, so the deferred kill guard fires on
a resolver error. -/
def resolveStep (r : Except String NetAddr) (st1 : ClientState) :
    StartRet × ClientState :=
  match r with
  | .error e => (⟨none, some e, true, true⟩, st1)
  | .ok a => (⟨some a, none, true, false⟩, { st1 with addr := some a })

/-- Client.Start. Mirrors the source control flow: cached address check,
pipe creation, spawn, then the select over timeout, child exit and the
first stdout line; the line is trimmed and split on the first pipe, the
first part switched against tcp and unix. The childKilled flag records
whether the deferred cleanup saw a non-nil local err variable: the
timeout, early-exit and malformed-line branches return fresh errors
without assigning that variable. -/
def clientStart (rv : AddrResolver) (st : ClientState) (env : StartEnv) :
    StartRet × ClientState :=
  match st.addr with
  | some a => (⟨some a, none, false, false⟩, st)
  | none =>
    match env.stdoutPipeErr with
    | some e => (⟨none, some e, false, false⟩, st)
    | none =>
      match env.stderrPipeErr with
      | some e => (⟨none, some e, false, false⟩, st)
      | none =>
        match env.spawn with
        | .error e => (⟨none, some e, false, false⟩, st)
        | .ok pid =>
          let st1 := { st with proc := some pid }
          match env.outcome with
          | .timeout =>
            (⟨none, some "timeout while waiting for plugin to start", true, false⟩, st1)
          | .doneCtx =>
            (⟨none, some "plugin exited before we could connect", true, false⟩, st1)
          | .line rawLine =>
            let line := goTrimSpace rawLine
            match splitNPipe2 line with
            | p0 :: p1 :: _ =>
              match p0 with
              | "tcp" => resolveStep (rv.resolveTCP p1) st1
              | "unix" => resolveStep (rv.resolveUnix p1) st1
              | _ => (⟨none, some ("Unknown address type: " ++ p0), true, true⟩, st1)
            | _ => (⟨none, some (unrecognizedMsg line), true, false⟩, st1)

/-- The parsing step of Client.Start in isolation: trim, split on the
first pipe, switch on the family field. -/
def parseLine (rv : AddrResolver) (rawLine : String) : Except String NetAddr :=
  let line := goTrimSpace rawLine
  match splitNPipe2 line with
  | p0 :: p1 :: _ =>
    match p0 with
    | "tcp" => rv.resolveTCP p1
    | "unix" => rv.resolveUnix p1
    | _ => Except.error ("Unknown address type: " ++ p0)
  | _ => Except.error (unrecognizedMsg line)

/-- The uint32 modulus: broker stream IDs live in unsigned 32-bit
arithmetic. -/
def uint32Mod : Nat := 2 ^ 32

/-- MuxBroker.NextId as a state transition on the counter field:
atomic.AddUint32 increments and returns the new value, wrapping
modulo 2 ^ 32. -/
def nextIdStep (counter : Nat) : Nat × Nat :=
  let v := (counter + 1) % uint32Mod
  (v, v)

/-- The broker counter after n calls to NextId, starting from the zero
value of the freshly constructed broker. -/
def nextIdAfter : Nat → Nat
  | 0 => 0
  | n + 1 => (nextIdStep (nextIdAfter n)).2

/-- The value returned by the n-th call to NextId in a session (calls
numbered from 1). -/
def idOfCall (n : Nat) : Nat :=
  (nextIdStep (nextIdAfter (n - 1))).1

/-- The four bytes binary.Write produces for a uint32 in little-endian
order, least significant byte first. -/
def u32le (n : Nat) : List Nat :=
  [n % 2 ^ 8, n / 2 ^ 8 % 2 ^ 8, n / 2 ^ 16 % 2 ^ 8, n / 2 ^ 24 % 2 ^ 8]

/-- Where one run of MuxBroker.Dial stops: the stream open can fail, the
id write can fail, the ack read can fail, or an ack value arrives. -/
inductive DialStep where
  | openFail (e : String)
  | writeFail (e : String)
  | readFail (e : String)
  | ackReceived (ack : Nat)
deriving DecidableEq, Repr

/-- Observable result of MuxBroker.Dial: whether a stream was returned,
the error, whether a stream was opened on the mux, whether that stream
was closed again, and the id bytes written onto the wire. -/
structure DialResult where
  stream : Bool
  err : Option String
  opened : Bool
  closed : Bool
  wrote : List Nat
deriving DecidableEq, Repr

/-- MuxBroker.Dial: open a stream, write id as little-endian uint32,
read a uint32 ack, fail on ack mismatch with the bad-ack message; the
write-failure, read-failure and mismatch branches close the stream
before returning the error. -/
def brokerDial (id : Nat) (env : DialStep) : DialResult :=
  match env with
  | .openFail e => ⟨false, some e, false, false, []⟩
  | .writeFail e => ⟨false, some e, true, true, []⟩
  | .readFail e => ⟨false, some e, true, true, u32le id⟩
  | .ackReceived ack =>
    if ack = id then ⟨true, none, true, false, u32le id⟩
    else ⟨false,
      some ("bad ack: " ++ toString ack ++ " (expected " ++ toString id ++ ")"),
      true, true, u32le id⟩

/-- The timeout of MuxBroker.Accept, from time.After(5 * time.Second). -/
def acceptTimeoutSeconds : Nat := 5

/-- Outcome of the select in MuxBroker.Accept: either a stream is
received from the rendezvous channel (and the ack write then succeeds
or fails), or the five-second timer fires first. -/
inductive AcceptStep where
  | arrived (writeAckErr : Option String)
  | timedOut
deriving DecidableEq, Repr

/-- Observable result of MuxBroker.Accept: whether a stream was
returned, the error, the pending-rendezvous map afterwards, the ack
bytes the code asked to write, whether the received stream was closed,
and whether the completion signal of the entry was closed. -/
structure AcceptResult where
  stream : Bool
  err : Option String
  streams : Nat → Bool
  ackWrote : List Nat
  streamClosed : Bool
  doneClosed : Bool

/-- MuxBroker.getStream: return the pending entry for id, creating it
when absent; on the presence map this makes id present. -/
def getStreamMap (streams : Nat → Bool) (id : Nat) : Nat → Bool :=
  fun k => if k = id then true else streams k

/-- MuxBroker.Accept: look up or create the rendezvous entry for id,
then wait on its channel against a five-second timer. On arrival, close
the completion signal and write id back as the little-endian ack,
closing the stream if that write fails. On timeout, delete the entry
from the map and fail with the timeout message. -/
def brokerAccept (streams : Nat → Bool) (id : Nat) (env : AcceptStep) :
    AcceptResult :=
  let st1 := getStreamMap streams id
  match env with
  | .timedOut =>
    ⟨false, some "timeout waiting for accept",
      fun k => if k = id then false else st1 k, [], false, false⟩
  | .arrived writeAckErr =>
    match writeAckErr with
    | some e => ⟨false, some e, st1, u32le id, true, true⟩
    | none => ⟨true, none, st1, u32le id, false, true⟩

/-- Environment for one run of RPCClient.Close: the error of the Quit
RPC call and the errors of the four subordinate Close calls, in source
order. -/
structure CloseEnv where
  quitErr : Option String
  controlCloseErr : Option String
  stdoutCloseErr : Option String
  stderrCloseErr : Option String
  brokerCloseErr : Option String
deriving DecidableEq, Repr

/-- Observable result of RPCClient.Close: the returned error and, for
each subordinate resource, whether its Close method was invoked. -/
structure CloseResult where
  ret : Option String
  controlClosed : Bool
  stdoutClosed : Bool
  stderrClosed : Bool
  brokerClosed : Bool
deriving DecidableEq, Repr

/-- RPCClient.Close: call Control.Quit first and retain its error, then
close control, stdout, stderr and broker in that order; each close error
is returned at once, so later closes are skipped; the retained Quit
error is returned only after all four closes succeed. -/
def rpcClientClose (env : CloseEnv) : CloseResult :=
  match env.controlCloseErr with
  | some e => ⟨some e, true, false, false, false⟩
  | none =>
    match env.stdoutCloseErr with
    | some e => ⟨some e, true, true, false, false⟩
    | none =>
      match env.stderrCloseErr with
      | some e => ⟨some e, true, true, true, false⟩
      | none =>
        match env.brokerCloseErr with
        | some e => ⟨some e, true, true, true, true⟩
        | none => ⟨env.quitErr, true, true, true, true⟩

/-- Environment for RPCClient.Dispense: the result of the
Dispenser.Dispense control RPC, the progress of broker Dial, and the
result of the client-side plugin constructor. -/
structure DispenseEnv where
  controlResp : Except String Nat
  dial : DialStep
  clientCtor : Except String Unit

/-- Observable result of RPCClient.Dispense: whether a proxy was
returned, the error, whether the control RPC round trip was made, and
the id dialled on the broker if any. -/
structure ClientDispenseResult where
  proxy : Bool
  err : Option String
  controlCalled : Bool
  dialedId : Option Nat
deriving DecidableEq, Repr

/-- RPCClient.Dispense: look the name up in the local plugin set before
anything else; a missing name fails locally without the control round
trip; otherwise call Dispenser.Dispense, dial the returned id on the
broker, and hand the stream to the plugin client constructor. -/
def rpcClientDispense (plugins : String → Bool) (name : String)
    (env : DispenseEnv) : ClientDispenseResult :=
  if plugins name then
    match env.controlResp with
    | .error e => ⟨false, some e, true, none⟩
    | .ok id =>
      match (brokerDial id env.dial).err with
      | some e => ⟨false, some e, true, some id⟩
      | none =>
        match env.clientCtor with
        | .error e => ⟨false, some e, true, some id⟩
        | .ok _ => ⟨true, none, true, some id⟩
  else ⟨false, some ("unknown plugin type: " ++ name), false, none⟩

/-- Environment for dispenseServer.Dispense: the result of the
server-side plugin constructor. -/
structure ServerDispenseEnv where
  serverCtor : Except String Unit

/-- Observable result of dispenseServer.Dispense: the id written to the
response, the returned error, whether the plugin server constructor was
called, the broker counter afterwards, and the id handed to the
asynchronous broker Accept if any. -/
structure ServerDispenseResult where
  response : Option Nat
  err : Option String
  ctorCalled : Bool
  counterAfter : Nat
  acceptSpawnedFor : Option Nat
deriving DecidableEq, Repr

/-- dispenseServer.Dispense: look the name up in the plugin set; a
missing name fails with the unknown-plugin message before the
constructor runs and before any id is allocated; a constructor error is
surfaced as its message; otherwise NextId allocates the id, the id is
written to the response, and the accept goroutine is spawned for it. -/
def dispenseServerDispense (plugins : String → Bool) (name : String)
    (env : ServerDispenseEnv) (counter : Nat) : ServerDispenseResult :=
  if plugins name then
    match env.serverCtor with
    | .error e => ⟨none, some e, true, counter, none⟩
    | .ok _ =>
      let v := nextIdStep counter
      ⟨some v.1, none, true, v.2, some v.1⟩
  else ⟨none, some ("unknown plugin type: " ++ name), false, counter, none⟩

/-- Exited, reading the has-exited flag under the lock. -/
def clientExited (st : ClientState) : Bool :=
  st.exited

/-- The bounded wait of the graceful phase of Kill, from
time.After(2 * time.Second). -/
def gracefulWaitSeconds : Nat := 2

/-- Environment for one run of Client.Kill: whether Protocol()
constructs a runtime, whether its Close call succeeds, and whether the
subprocess-exit signal fires inside the two-second window. -/
structure KillEnv where
  protocolOk : Bool
  closeOk : Bool
  exitedWithin2s : Bool
deriving DecidableEq, Repr

/-- Client.Kill: snapshot proc and addr; with no proc, return at once
leaving the state untouched. Otherwise attempt the graceful path when an
address is cached, fall back to the OS kill when the graceful attempt
fails or the two-second wait times out, and in every such run the
deferred completion joins all supervisor tasks, after which the reaper
has set the exited flag, and clears proc. The Bool of the result records
an immediate return. -/
def clientKill (st : ClientState) (env : KillEnv) : Bool × ClientState :=
  match st.proc with
  | none => (true, st)
  | some _ =>
    let graceful := st.addr.isSome && env.protocolOk && env.closeOk
    let forced := !(graceful && env.exitedWithin2s)
    (false,
      { st with
        exited := true
        proc := none
        procKilled := st.procKilled || forced })

/-- The state of a Go channel value held in the DoneCh field: the field
is either nil or references an open or an already-closed channel. -/
inductive ChanState where
  | opened
  | closedCh
deriving DecidableEq, Repr

/-- RPCServer.done: under the lock, when DoneCh is non-nil, close it and
set the field to nil. Closing an already-closed channel is the Go
run-time panic, modelled as the error case. The Bool records whether a
close happened in this call. -/
def rpcServerDone : Option ChanState → Except String (Bool × Option ChanState)
  | some .opened => .ok (true, none)
  | some .closedCh => .error "close of closed channel"
  | none => .ok (false, none)

/-- controlServer.Quit: call done on the server, then always set the
empty response and return without error; a panic in done is the only
failure. -/
def controlQuit (doneCh : Option ChanState) :
    Except String (Bool × Option ChanState) :=
  match rpcServerDone doneCh with
  | .error e => .error e
  | .ok (closedNow, ch) => .ok (closedNow, ch)

/-- n successive Quit calls in one session, counting how many of them
closed the channel; an error is a reached panic. -/
def quitN : Nat → Option ChanState → Except String (Nat × Option ChanState)
  | 0, ch => .ok (0, ch)
  | n + 1, ch =>
    match controlQuit ch with
    | .error e => .error e
    | .ok (closedNow, ch1) =>
      match quitN n ch1 with
      | .error e => .error e
      | .ok (c, ch2) => .ok ((if closedNow then 1 else 0) + c, ch2)

/-- C2: the supervisor cannot parse a handshake line in the documented
four-field format, in particular the very line Serve prints: splitting
on the first pipe leaves the core protocol version as the family field,
so Start fails with the unknown-address-type error instead of returning
an address of the network named on the line. -/
theorem parseLine_rejects_serve_handshake :
    parseLine modelResolver (serveHandshakeLine "tcp" ":1234") =
      Except.error "Unknown address type: 1" ∧
    parseLine modelResolver (serveHandshakeLine "unix" "/tmp/plugin1") =
      Except.error "Unknown address type: 1" := by
  exact ⟨rfl, rfl⟩

/-- C3: after a successful spawn, the error returns for the start
timeout, for child exit before connecting, and for a malformed
handshake line leave the deferred cleanup with a nil local err, so the
child is not killed on those paths; only the unknown-address-family
branch assigns the local err and triggers the kill. -/
theorem clientStart_error_paths_no_kill :
    clientStart modelResolver ⟨none, none, false, false⟩
        ⟨none, none, Except.ok 7, StartOutcome.timeout⟩ =
      (⟨none, some "timeout while waiting for plugin to start", true, false⟩,
        ⟨none, some 7, false, false⟩) ∧
    (clientStart modelResolver ⟨none, none, false, false⟩
        ⟨none, none, Except.ok 7, StartOutcome.doneCtx⟩).1.childKilled = false ∧
    (clientStart modelResolver ⟨none, none, false, false⟩
        ⟨none, none, Except.ok 7, StartOutcome.line "bogus"⟩).1.childKilled = false ∧
    (clientStart modelResolver ⟨none, none, false, false⟩
        ⟨none, none, Except.ok 7, StartOutcome.line "bogus"⟩).1.err.isSome = true ∧
    (clientStart modelResolver ⟨none, none, false, false⟩
        ⟨none, none, Except.ok 7, StartOutcome.line "foo|bar"⟩).1.childKilled = true := by
  exact ⟨rfl, rfl, rfl, rfl, rfl⟩

/-- C8: Start is idempotent — with a cached address, Start returns that
address with no error, spawns nothing, kills nothing and leaves the
supervisor state exactly as it was. -/
theorem clientStart_idempotent (rv : AddrResolver) (st : ClientState)
    (env : StartEnv) (a : NetAddr) (h : st.addr = some a) :
    clientStart rv st env = (⟨some a, none, false, false⟩, st) := by
  unfold clientStart
  rw [h]

/-- Witness for C8 at a concrete supervisor state with a cached tcp
address. -/
theorem clientStart_idempotent_witness :
    clientStart modelResolver ⟨some ⟨"tcp", ":1234"⟩, some 3, false, false⟩
        ⟨none, none, Except.ok 9, StartOutcome.timeout⟩ =
      (⟨some ⟨"tcp", ":1234"⟩, none, false, false⟩,
        ⟨some ⟨"tcp", ":1234"⟩, some 3, false, false⟩) :=
  clientStart_idempotent modelResolver _ _ _ rfl

/-- The broker counter equals the number of NextId calls so far, reduced
modulo 2 ^ 32. -/
theorem nextIdAfter_mod (n : Nat) : nextIdAfter n = n % uint32Mod := by
  induction n with
  | zero => rfl
  | succ k ih =>
    show (nextIdStep (nextIdAfter k)).2 = (k + 1) % uint32Mod
    rw [ih]
    show (k % uint32Mod + 1) % uint32Mod = (k + 1) % uint32Mod
    exact Nat.mod_add_mod k uint32Mod 1

/-- Closed form for the value returned by the n-th NextId call. -/
theorem idOfCall_mod (n : Nat) (h : 1 ≤ n) : idOfCall n = n % uint32Mod := by
  show (nextIdStep (nextIdAfter (n - 1))).1 = n % uint32Mod
  rw [nextIdAfter_mod]
  show ((n - 1) % uint32Mod + 1) % uint32Mod = n % uint32Mod
  rw [Nat.mod_add_mod, Nat.sub_add_cancel h]

/-- C4 counterexample: the counter wraps modulo 2 ^ 32, so the call
numbered 2 ^ 32 returns 0 rather than its call number, and the call
numbered 2 ^ 32 + 1 repeats the id of the first call. -/
theorem idOfCall_wraps :
    idOfCall (2 ^ 32) = 0 ∧ (2 ^ 32 : Nat) ≠ 0 ∧
    idOfCall (2 ^ 32 + 1) = idOfCall 1 ∧ (2 ^ 32 + 1 : Nat) ≠ 1 := by
  refine ⟨?_, by norm_num, ?_, by norm_num⟩
  · rw [idOfCall_mod (2 ^ 32) (by norm_num)]
    simp [uint32Mod]
  · rw [idOfCall_mod (2 ^ 32 + 1) (by norm_num), idOfCall_mod 1 (by norm_num)]
    norm_num [uint32Mod]

/-- C4 amended: the n-th NextId call returns n modulo 2 ^ 32 (the first
call returns 1), and two calls return distinct ids whenever their call
numbers differ modulo 2 ^ 32. -/
theorem nextId_spec :
    idOfCall 1 = 1 ∧
    (∀ n, 1 ≤ n → idOfCall n = n % uint32Mod) ∧
    (∀ i j, 1 ≤ i → 1 ≤ j → i % uint32Mod ≠ j % uint32Mod →
      idOfCall i ≠ idOfCall j) := by
  refine ⟨rfl, fun n h => idOfCall_mod n h, ?_⟩
  intro i j hi hj hne
  rw [idOfCall_mod i hi, idOfCall_mod j hj]
  exact hne

/-- Witness for C4 at the first and second calls. -/
theorem nextId_spec_witness :
    idOfCall 2 = 2 % uint32Mod ∧ idOfCall 1 ≠ idOfCall 2 := by
  exact ⟨nextId_spec.2.1 2 (by norm_num),
    nextId_spec.2.2 1 2 (by norm_num) (by norm_num) (by decide)⟩

/-- C1 counterexample: when both the Quit call and the control close
fail, Close returns the control close error, not the retained Quit
error, and the stdout, stderr and broker closes are skipped. -/
theorem rpcClientClose_counterexample :
    (rpcClientClose ⟨some "quit failed", some "control close failed",
        none, none, none⟩).ret = some "control close failed" ∧
    (rpcClientClose ⟨some "quit failed", some "control close failed",
        none, none, none⟩).ret ≠ some "quit failed" ∧
    (rpcClientClose ⟨some "quit failed", some "control close failed",
        none, none, none⟩).stdoutClosed = false ∧
    (rpcClientClose ⟨some "quit failed", some "control close failed",
        none, none, none⟩).stderrClosed = false ∧
    (rpcClientClose ⟨some "quit failed", some "control close failed",
        none, none, none⟩).brokerClosed = false := by
  decide

/-- C1 amended: Close invokes Control.Quit first and retains its error,
then closes control, stdout, stderr and broker in that order, but
returns at the first close error, skipping the later closes; the
retained Quit error is returned only when all four closes succeed, and
in that case all four resources are released even if the Quit call
failed. -/
theorem rpcClientClose_spec (env : CloseEnv) :
    (rpcClientClose env).controlClosed = true ∧
    (rpcClientClose env).ret =
      (match env.controlCloseErr, env.stdoutCloseErr,
          env.stderrCloseErr, env.brokerCloseErr with
        | some e, _, _, _ => some e
        | none, some e, _, _ => some e
        | none, none, some e, _ => some e
        | none, none, none, some e => some e
        | none, none, none, none => env.quitErr) ∧
    (env.controlCloseErr = none → env.stdoutCloseErr = none →
      env.stderrCloseErr = none → env.brokerCloseErr = none →
      rpcClientClose env = ⟨env.quitErr, true, true, true, true⟩) := by
  obtain ⟨q, c, o, e, b⟩ := env
  cases c <;> cases o <;> cases e <;> cases b <;> simp [rpcClientClose]

/-- Witness for C1: with a failing Quit and all subordinate closes
succeeding, every resource is released and the Quit error is returned. -/
theorem rpcClientClose_spec_witness :
    rpcClientClose ⟨some "quit failed", none, none, none, none⟩ =
      ⟨some "quit failed", true, true, true, true⟩ :=
  (rpcClientClose_spec ⟨some "quit failed", none, none, none, none⟩).2.2
    rfl rfl rfl rfl

/-- C5: Dial writes the id as little-endian uint32 and succeeds exactly
on a matching ack; a mismatched ack yields the bad-ack message with the
received and expected values; and on every failing path a stream that
was opened is closed again and no stream is returned. -/
theorem brokerDial_spec (id : Nat) :
    brokerDial id (DialStep.ackReceived id) = ⟨true, none, true, false, u32le id⟩ ∧
    (∀ ack, ack ≠ id →
      brokerDial id (DialStep.ackReceived ack) =
        ⟨false,
          some ("bad ack: " ++ toString ack ++ " (expected " ++ toString id ++ ")"),
          true, true, u32le id⟩) ∧
    (∀ env, (brokerDial id env).err.isSome = true →
      (brokerDial id env).stream = false ∧
      ((brokerDial id env).opened = true → (brokerDial id env).closed = true)) := by
  refine ⟨by simp [brokerDial], ?_, ?_⟩
  · intro ack h
    simp [brokerDial, h]
  · intro env h
    cases env with
    | openFail e => simp [brokerDial]
    | writeFail e => simp [brokerDial]
    | readFail e => simp [brokerDial]
    | ackReceived a =>
      by_cases ha : a = id
      · simp [brokerDial, ha] at h
      · simp [brokerDial, ha]

/-- Witness for C5 at id 5 with a matching and a mismatched ack. -/
theorem brokerDial_spec_witness :
    brokerDial 5 (DialStep.ackReceived 5) = ⟨true, none, true, false, u32le 5⟩ ∧
    brokerDial 5 (DialStep.ackReceived 7) =
      ⟨false, some "bad ack: 7 (expected 5)", true, true, u32le 5⟩ :=
  ⟨(brokerDial_spec 5).1,
    ((brokerDial_spec 5).2.1 7 (by decide)).trans (by decide)⟩

/-- C6: Accept waits on the rendezvous for the id against the
five-second timer; on arrival it writes the id back as the
little-endian ack and returns the stream; on timeout it removes the
pending entry for the id and fails with the timeout message. -/
theorem brokerAccept_spec (streams : Nat → Bool) (id : Nat) :
    acceptTimeoutSeconds = 5 ∧
    (brokerAccept streams id AcceptStep.timedOut).err =
      some "timeout waiting for accept" ∧
    (brokerAccept streams id AcceptStep.timedOut).stream = false ∧
    (brokerAccept streams id AcceptStep.timedOut).streams id = false ∧
    (brokerAccept streams id (AcceptStep.arrived none)).stream = true ∧
    (brokerAccept streams id (AcceptStep.arrived none)).err = none ∧
    (brokerAccept streams id (AcceptStep.arrived none)).ackWrote = u32le id := by
  refine ⟨rfl, rfl, rfl, ?_, rfl, rfl, rfl⟩
  simp [brokerAccept]

/-- C7: a name outside the plugin set makes Dispense fail with exactly
the unknown-plugin-type message; the client fails locally before the
control round trip, and the server fails before calling the plugin
constructor and before allocating a broker id. -/
theorem dispense_unknown_plugin (plugins : String → Bool) (name : String)
    (env : DispenseEnv) (senv : ServerDispenseEnv) (counter : Nat)
    (h : plugins name = false) :
    rpcClientDispense plugins name env =
      ⟨false, some ("unknown plugin type: " ++ name), false, none⟩ ∧
    dispenseServerDispense plugins name senv counter =
      ⟨none, some ("unknown plugin type: " ++ name), false, counter, none⟩ := by
  constructor <;> simp [rpcClientDispense, dispenseServerDispense, h]

/-- Witness for C7 with an empty plugin set and the name greeter. -/
theorem dispense_unknown_plugin_witness :
    rpcClientDispense (fun _ => false) "greeter"
        ⟨Except.ok 1, DialStep.ackReceived 1, Except.ok ()⟩ =
      ⟨false, some "unknown plugin type: greeter", false, none⟩ ∧
    dispenseServerDispense (fun _ => false) "greeter" ⟨Except.ok ()⟩ 0 =
      ⟨none, some "unknown plugin type: greeter", false, 0, none⟩ :=
  dispense_unknown_plugin (fun _ => false) "greeter"
    ⟨Except.ok 1, DialStep.ackReceived 1, Except.ok ()⟩ ⟨Except.ok ()⟩ 0 rfl

/-- C9: on a supervisor holding a child process, Kill does not return
immediately, and afterwards Exited reads true and proc is cleared; any
later Kill sees a nil proc and returns at once without changing the
state. -/
theorem clientKill_post (st : ClientState) (env : KillEnv)
    (h : st.proc.isSome = true) :
    (clientKill st env).1 = false ∧
    clientExited (clientKill st env).2 = true ∧
    (clientKill st env).2.proc = none ∧
    (∀ env2, clientKill (clientKill st env).2 env2 =
      (true, (clientKill st env).2)) := by
  cases hp : st.proc with
  | none => rw [hp] at h; simp at h
  | some pid => simp [clientKill, hp, clientExited]

/-- Witness for C9 at a concrete supervisor with a live child. -/
theorem clientKill_post_witness :
    (clientKill ⟨some ⟨"tcp", ":1234"⟩, some 3, false, false⟩
      ⟨true, true, true⟩).2.proc = none ∧
    clientExited (clientKill ⟨some ⟨"tcp", ":1234"⟩, some 3, false, false⟩
      ⟨true, true, true⟩).2 = true :=
  ⟨(clientKill_post ⟨some ⟨"tcp", ":1234"⟩, some 3, false, false⟩
      ⟨true, true, true⟩ rfl).2.2.1,
    (clientKill_post ⟨some ⟨"tcp", ":1234"⟩, some 3, false, false⟩
      ⟨true, true, true⟩ rfl).2.1⟩

/-- Quit calls on a nil DoneCh never close anything and never panic. -/
theorem quitN_nil (m : Nat) : quitN m none = .ok (0, none) := by
  induction m with
  | zero => rfl
  | succ k ih => simp [quitN, controlQuit, rpcServerDone, ih]

/-- C10: any number of Quit calls in one session is safe: no run ever
reaches the closed-channel panic, the done channel is closed at most
once (exactly once when at least one Quit arrives), and the field is
nil afterwards. -/
theorem controlQuit_safe (n : Nat) :
    quitN n (some ChanState.opened) =
      .ok (min n 1, if n = 0 then some ChanState.opened else none) := by
  cases n with
  | zero => rfl
  | succ k =>
    simp [quitN, controlQuit, rpcServerDone, quitN_nil]
